import Mathlib

/-!
Verification of the embedthis/updater OTA update client (src/src/updater.c).

The C code is shallowly embedded: pure string-scanning helpers (json, fetchHeader,
atoi, parseResponseBody) become Lean functions over lists of characters; the
effectful orchestration (update, postReport, fetchFile) is modelled by explicit
environment records that supply the results of each network or filesystem
primitive, together with a trace of the network operations attempted.
-/

namespace Updater

/-- Index of the first occurrence of `needle` as a contiguous substring of the
    haystack, as computed by C strstr (an empty needle matches at index 0). -/
def substrIdx (needle : List Char) : List Char → Option Nat
  | [] => if needle.isEmpty then some 0 else none
  | c :: rest =>
      if needle.isPrefixOf (c :: rest) then some 0
      else (substrIdx needle rest).map (fun n => n + 1)

/-- C strstr followed by skipping over the needle itself: the suffix of the
    haystack that follows the first occurrence of `needle`. -/
def strstrDrop (needle hay : List Char) : Option (List Char) :=
  (substrIdx needle hay).map (fun i => hay.drop (i + needle.length))

/-- C isspace for the ASCII characters the updater can meet in headers. -/
def isCSpace (c : Char) : Bool :=
  c = ' ' || c = '\t' || c = '\n' || c = '\x0b' || c = '\x0c' || c = '\r'

/-- Value of a string of decimal digits, most significant first. -/
def digitsToNat (ds : List Char) : Nat :=
  ds.foldl (fun a c => a * 10 + (c.toNat - 48)) 0

/-- Conversion of a mathematical integer to the 32-bit int that C atoi
    returns: reduction modulo 2^32 into the signed range. -/
def wrap32 (n : Int) : Int := (n + 2 ^ 31) % 2 ^ 32 - 2 ^ 31

/-- C atoi: skip leading whitespace, optional sign, then the longest prefix of
    decimal digits; no digits yields 0. The converted value is a 32-bit int,
    so it wraps modulo 2^32: atoi of "4294967296" is 0 and atoi of
    "8589934692" is 100. -/
def atoiInt (cs : List Char) : Int :=
  let cs1 := cs.dropWhile isCSpace
  wrap32 (match cs1 with
  | '-' :: rest => - (digitsToNat (rest.takeWhile (fun c => c.isDigit)) : Int)
  | '+' :: rest => (digitsToNat (rest.takeWhile (fun c => c.isDigit)) : Int)
  | _ => (digitsToNat (cs1.takeWhile (fun c => c.isDigit)) : Int))

/-- The json() field extractor of updater.c on character lists: search for the
    literal substring "key": and return the (possibly quoted) scalar after it.
    The snprintf length guard on the 80-byte key buffer is kept. -/
def jsonList (text key : List Char) : Option (List Char) :=
  let keybuf : List Char := '\"' :: (key ++ ['\"', ':'])
  if 80 ≤ keybuf.length then none
  else
    match strstrDrop keybuf text with
    | none => none
    | some rest =>
        let quoted : Bool := rest.head? == some '\"'
        let start := if quoted then rest.tail else rest
        some (start.takeWhile (fun c =>
          if quoted then c != '\"' else (c != ',' && c != '\x7d')))

/-- json() on Lean strings. -/
def json (text key : String) : Option String :=
  (jsonList text.data key.data).map (fun cs => String.mk cs)

/-- The fetchHeader() of updater.c: find the first occurrence of the literal
    substring "key:" anywhere in the response text (snprintf silently truncates
    the 80-byte key buffer), then the text up to the next CRLF, with leading
    C whitespace skipped. No CRLF after the match leaves the value NULL. -/
def fetchHeaderList (response key : List Char) : Option (List Char) :=
  let kbuf : List Char := (key ++ [':']).take 79
  match substrIdx kbuf response with
  | none => none
  | some i =>
      let start0 := response.drop i
      match substrIdx ['\r', '\n'] start0 with
      | none => none
      | some e =>
          some (((start0.take e).drop kbuf.length).dropWhile isCSpace)

/-- The parseResponseBody() of updater.c: split the raw response at the first
    CRLFCRLF, require a Content-Length header in the part before it, convert
    its value with atoi and reject results below 0 or above 100 MiB, and keep
    any body fragment that was read together with the headers. Returns the
    accepted content length and the optional body fragment. -/
def parseResponseBody (response : List Char) (bytes : Nat) :
    Option (Nat × Option (List Char)) :=
  match substrIdx ['\r', '\n', '\r', '\n'] response with
  | none => none
  | some i =>
      match fetchHeaderList (response.take i) ("Content-Length".data) with
      | none => none
      | some hv =>
          let contentLength := atoiInt hv
          if contentLength < 0 ∨ 100 * 1024 * 1024 < contentLength then none
          else
            let headerBytes := i + 4
            if headerBytes < bytes then
              some (contentLength.toNat,
                some ((response.drop headerBytes).take (bytes - headerBytes)))
            else
              some (contentLength.toNat, none)

/-- Kind of a pre-existing filesystem object at the download destination
    (unlink(2) removes either kind). -/
inductive FsKind
  | regular
  | symlink
  deriving DecidableEq, Repr

/-- What sits at the destination path: an object that predates the call to
    fetchFile, or the fresh file fetchFile itself creates. -/
inductive FsObj
  | existing (k : FsKind)
  | freshFile
  deriving DecidableEq, Repr

/-- unlink(path): when it succeeds the object at the path is removed; when it
    fails (sticky /tmp, unwritable directory, read-only filesystem) the object
    stays. fetchFile ignores the return value either way, so the outcome is
    just the new state of the path. -/
def unlinkFs (s : Option FsObj) (unlinkOk : Bool) : Option FsObj :=
  if unlinkOk then none else s

/-- open(path, O_WRONLY|O_CREAT|O_EXCL|O_NOFOLLOW, 0600): O_EXCL fails on any
    existing object (O_NOFOLLOW additionally refuses a symlink), otherwise a
    fresh regular file is created when the OS permits (openOk). Returns the new
    state of the path when the open succeeds. -/
def openExclNofollow (s : Option FsObj) (openOk : Bool) : Option (Option FsObj) :=
  match s with
  | some _ => none
  | none => if openOk then some (some FsObj.freshFile) else none

/-- The fetchFile() of updater.c at the level of the destination path: warn on
    /tmp (no state effect), unlink the path ignoring the result (unlinkOk says
    whether the unlink succeeded), open it with exclusive-create and no-follow
    semantics, check the descriptor is a regular file, then stream the body
    (writesOk abstracts the write/read loop). Returns the C result code and
    the final object at the path. -/
def fetchFile (pre : Option FsObj) (unlinkOk openOk writesOk : Bool) :
    Int × Option FsObj :=
  let s := unlinkFs pre unlinkOk
  match openExclNofollow s openOk with
  | none => (-1, s)
  | some s2 => if writesOk then (0, s2) else (-1, s2)

/-- A network operation attempted by the updater. fetch() opens a connection as
    soon as it is called, so every call to fetch() is recorded, successful or
    not. -/
inductive NetOp
  | post (url body : String)
  | get (url : String)
  deriving DecidableEq, Repr

/-- Results the outside world supplies to one run of update(): outcomes of the
    three fetch() calls, of fetchString/fetchFile/getFileSum, and the exit
    status of the apply script. -/
structure Env where
  checkFetchOk : Bool
  checkBody : Option String
  downloadFetchOk : Bool
  saveOk : Bool
  fileSum : Option String
  runStatus : Int
  reportFetchOk : Bool

/-- URL of the update check request, snprintf "%s/tok/provision/update". -/
def checkUrl (host : String) : String := host ++ "/tok/provision/update"

/-- Body of the update check request. -/
def checkRequestBody (device product version : String)
    (properties : Option String) : String :=
  "\x7b\"id\":\"" ++ device ++ "\",\"product\":\"" ++ product ++
    "\",\"version\":\"" ++ version ++ "\"" ++
    (match properties with
     | some pr => "," ++ pr
     | none => "") ++ "\x7d"

/-- Authorization headers used for the check and report requests. -/
def authHeaders (token : String) : String :=
  "Content-Type: application/json\r\nAuthorization: " ++ token ++ "\r\n"

/-- URL of the status report, snprintf "%s/tok/provision/updateReport". -/
def reportUrl (host : String) : String := host ++ "/tok/provision/updateReport"

/-- Body of the status report: success is the boolean "the script exited 0". -/
def reportBody (status : Int) (device updateId : String) : String :=
  "\x7b\"success\":" ++ (if status = 0 then "true" else "false") ++
    ",\"id\":\"" ++ device ++ "\",\"update\":\"" ++ updateId ++ "\"\x7d"

/-- The postReport() of updater.c: format body (4096-byte buffer), report URL
    (256-byte buffer) and headers (256-byte buffer), failing on truncation
    before any network activity, then POST the report. -/
def postReport (status : Int) (host device updateId token : String)
    (env : Env) : Int × List NetOp :=
  let body := reportBody status device updateId
  if 4096 ≤ body.length then (-1, [])
  else
    let url := reportUrl host
    if 256 ≤ url.length then (-1, [])
    else
      let headers := authHeaders token
      if 256 ≤ headers.length then (-1, [])
      else if env.reportFetchOk then (0, [NetOp.post url body])
      else (-1, [NetOp.post url body])

/-- The update() of updater.c. Required pointer arguments are Option values
    (none is NULL); properties and script stay optional. Returns the C result
    code together with the trace of attempted network operations. -/
def update (host product token device version properties path script : Option String)
    (env : Env) : Int × List NetOp :=
  match host, product, token, device, version, path with
  | some h, some p, some t, some d, some v, some _pa =>
      let url := checkUrl h
      if 4096 ≤ url.length then (-1, [])
      else
        let body := checkRequestBody d p v properties
        if 4096 ≤ body.length then (-1, [])
        else
          let headers := authHeaders t
          if 256 ≤ headers.length then (-1, [])
          else if !env.checkFetchOk then (-1, [NetOp.post url body])
          else
            match env.checkBody with
            | none => (-1, [NetOp.post url body])
            | some response =>
                match json response "url" with
                | none => (0, [NetOp.post url body])
                | some downloadUrl =>
                    match json response "checksum", json response "update",
                      json response "version" with
                    | some checksum, some updateId, some _uv =>
                        if 256 ≤ ("Accept: */*\r\n" : String).length then
                          (-1, [NetOp.post url body])
                        else if !("https://".data.isPrefixOf downloadUrl.data) then
                          (-1, [NetOp.post url body])
                        else if !env.downloadFetchOk then
                          (-1, [NetOp.post url body, NetOp.get downloadUrl])
                        else if !env.saveOk then
                          (-1, [NetOp.post url body, NetOp.get downloadUrl])
                        else
                          match env.fileSum with
                          | none => (-1, [NetOp.post url body, NetOp.get downloadUrl])
                          | some fsum =>
                              if fsum ≠ checksum then
                                (-1, [NetOp.post url body, NetOp.get downloadUrl])
                              else
                                match script with
                                | none =>
                                    (0, [NetOp.post url body, NetOp.get downloadUrl])
                                | some _s =>
                                    let r := postReport env.runStatus h d updateId t env
                                    (if r.1 < 0 then -1 else 0,
                                     [NetOp.post url body, NetOp.get downloadUrl] ++ r.2)
                    | _, _, _ => (-1, [NetOp.post url body])
  | _, _, _, _, _, _ => (-1, [])

/-- Is this operation a POST to the given URL? -/
def isPostTo (u : String) : NetOp → Bool
  | NetOp.post u2 _ => u2 = u
  | NetOp.get _ => false

/-- A response whose Content-Length header carries the given raw value, with a
    further header after it and the four body bytes BODY. -/
def mkResp (hv : List Char) : List Char :=
  "Content-Length:".data ++ hv ++ "\r\nA: b\r\n\r\nBODY".data

/-! ### Lemmas about the substring scanner -/

theorem isPrefixOf_append_self (l t : List Char) : l.isPrefixOf (l ++ t) = true := by
  induction l with
  | nil => simp
  | cons a as ih => simp [List.isPrefixOf_cons₂, ih]

theorem isPrefixOf_cons_of_ne {a b : Char} (as bs : List Char) (h : ¬ a = b) :
    (a :: as).isPrefixOf (b :: bs) = false := by
  simp [List.isPrefixOf_cons₂, h]

theorem substrIdx_cons_of_ne {d c : Char} (ds l : List Char) (h : ¬ d = c) :
    substrIdx (d :: ds) (c :: l) = (substrIdx (d :: ds) l).map (fun n => n + 1) := by
  simp [substrIdx, isPrefixOf_cons_of_ne ds l h]

theorem substrIdx_append_of_head_notMem {n : List Char} {d : Char} (xs ys : List Char)
    (hd : n.head? = some d) (h : d ∉ xs) :
    substrIdx n (xs ++ ys) = (substrIdx n ys).map (fun m => m + xs.length) := by
  obtain ⟨ds, rfl⟩ : ∃ ds, n = d :: ds := by
    cases n with
    | nil => simp at hd
    | cons a as => simp at hd; exact ⟨as, by rw [hd]⟩
  induction xs with
  | nil =>
      simp only [List.nil_append, List.length_nil]
      cases substrIdx (d :: ds) ys
      · simp
      · simp
  | cons c cs ih =>
      have hdc : ¬ d = c := fun e => h (by simp [e])
      rw [List.cons_append, substrIdx_cons_of_ne _ _ hdc,
        ih (fun hm => h (List.mem_cons_of_mem _ hm))]
      cases substrIdx (d :: ds) ys
      · simp
      · simp
        omega

theorem substrIdx_append_self {n : List Char} (t : List Char) (hn : n ≠ []) :
    substrIdx n (n ++ t) = some 0 := by
  cases n with
  | nil => exact absurd rfl hn
  | cons d ds =>
      rw [List.cons_append]
      simp [substrIdx, List.isPrefixOf_cons₂, isPrefixOf_append_self]

theorem atoiInt_dropWhile (l : List Char) :
    atoiInt (l.dropWhile isCSpace) = atoiInt l := by
  simp [atoiInt, List.dropWhile_idempotent]

/-! ### Claim theorems -/

/-- C10: fetchHeader returns the text following the first occurrence of the
    substring "key:" anywhere in the block: a header named X-Content-Length
    matches the key Content-Length, and its value is returned no matter what a
    later header actually named Content-Length (inside rest) says. -/
theorem fetchHeader_substring_match (v rest : List Char) (hv : '\r' ∉ v) :
    fetchHeaderList ("X-Content-Length: ".data ++ v ++ ('\r' :: '\n' :: rest))
      ("Content-Length".data) = some (v.dropWhile isCSpace) := by
  have h1 : "X-Content-Length: ".data ++ v ++ ('\r' :: '\n' :: rest)
      = ['X', '-'] ++ ("Content-Length:".data ++ (' ' :: (v ++ ('\r' :: '\n' :: rest)))) := by
    show ((['X', '-'] ++ ("Content-Length:".data ++ [' '])) ++ v ++ ('\r' :: '\n' :: rest)) = _
    simp [List.append_assoc]
  have hk : (("Content-Length".data ++ [':']).take 79) = "Content-Length:".data := by decide
  have e1 : substrIdx ("Content-Length:".data)
      (['X', '-'] ++ ("Content-Length:".data ++ (' ' :: (v ++ ('\r' :: '\n' :: rest)))))
      = some 2 := by
    rw [substrIdx_append_of_head_notMem (n := "Content-Length:".data) (d := 'C')
      _ _ rfl (by decide),
      substrIdx_append_self _ (by decide)]
    rfl
  have hdrop :
      (['X', '-'] ++ ("Content-Length:".data ++ (' ' :: (v ++ ('\r' :: '\n' :: rest))))).drop 2
      = "Content-Length:".data ++ (' ' :: (v ++ ('\r' :: '\n' :: rest))) := rfl
  have e2 : substrIdx ['\r', '\n']
      ("Content-Length:".data ++ (' ' :: (v ++ ('\r' :: '\n' :: rest))))
      = some (v.length + 16) := by
    rw [substrIdx_append_of_head_notMem (n := ['\r', '\n']) (d := '\r') _ _ rfl (by decide)]
    rw [show (' ' :: (v ++ ('\r' :: '\n' :: rest)))
        = [' '] ++ (v ++ (['\r', '\n'] ++ rest)) from rfl]
    rw [substrIdx_append_of_head_notMem (n := ['\r', '\n']) (d := '\r') _ _ rfl (by decide)]
    rw [substrIdx_append_of_head_notMem (n := ['\r', '\n']) (d := '\r') _ _ rfl hv]
    rw [substrIdx_append_self _ (by decide)]
    simp
  have e3 : (("Content-Length:".data ++ (' ' :: (v ++ ('\r' :: '\n' :: rest)))).take
      (v.length + 16)) = "Content-Length:".data ++ (' ' :: v) := by
    rw [show ("Content-Length:".data ++ (' ' :: (v ++ ('\r' :: '\n' :: rest))))
        = ("Content-Length:".data ++ (' ' :: v)) ++ ('\r' :: '\n' :: rest) by
      simp [List.append_assoc]]
    apply List.take_left'
    simp
  have e4 : List.drop 15 ("Content-Length:".data ++ (' ' :: v)) = ' ' :: v := by
    rw [show (15 : Nat) = ("Content-Length:".data).length from rfl]
    exact List.drop_left _ _
  have e5 : List.dropWhile isCSpace (' ' :: v) = List.dropWhile isCSpace v := by
    simp [List.dropWhile_cons, isCSpace]
  have hlen : ("Content-Length:".data).length = 15 := rfl
  rw [h1]
  simp only [fetchHeaderList, hk, e1, hdrop, e2, hlen, e3, e4, e5]

/-- Witness for C10: the raw block X-Content-Length: 99 then a real header
    Content-Length: 5; looking up Content-Length yields 99. -/
theorem fetchHeader_substring_match_witness :
    fetchHeaderList ("X-Content-Length: ".data ++ ['9', '9']
        ++ ('\r' :: '\n' :: "Content-Length: 5\r\n".data))
      ("Content-Length".data) = some ['9', '9'] := by
  have h := fetchHeader_substring_match ['9', '9'] ("Content-Length: 5\r\n".data) (by decide)
  exact h.trans (by decide)

/-- C7 counterexample: a Content-Length value "abc" does not parse as a
    non-negative integer, yet parseResponseBody accepts the response (atoi
    yields 0) instead of rejecting it as an error. -/
theorem parseResponseBody_accepts_nonnumeric :
    parseResponseBody (mkResp ('a' :: 'b' :: 'c' :: []))
        (mkResp ('a' :: 'b' :: 'c' :: [])).length
      = some (0, some ('B' :: 'O' :: 'D' :: 'Y' :: [])) := by
  decide

/-- C7 (amended): a missing Content-Length header is an error, and leading
    whitespace after the colon is tolerated; but the value is converted with
    atoi semantics, so only results below 0 or above 100 MiB are rejected — a
    value with no digits is accepted as length 0 rather than rejected. -/
theorem parseResponseBody_contentLength :
    (∀ hv : List Char, '\r' ∉ hv →
      parseResponseBody (mkResp hv) (mkResp hv).length =
        if atoiInt hv < 0 ∨ 100 * 1024 * 1024 < atoiInt hv then none
        else some ((atoiInt hv).toNat, some ("BODY".data))) ∧
    parseResponseBody ("X: 1\r\n\r\nBODY".data) ("X: 1\r\n\r\nBODY".data).length = none := by
  constructor
  · intro hv hr
    have hcat : ("\r\nA: b".data ++ "\r\n\r\nBODY".data) = "\r\nA: b\r\n\r\nBODY".data := by
      decide
    have hm : mkResp hv = "Content-Length:".data ++ (hv ++ "\r\nA: b\r\n\r\nBODY".data) := by
      simp [mkResp]
    have hsep : substrIdx ['\r', '\n', '\r', '\n'] (mkResp hv) = some (hv.length + 21) := by
      rw [hm]
      rw [substrIdx_append_of_head_notMem (n := ['\r', '\n', '\r', '\n']) (d := '\r')
        _ _ rfl (by decide)]
      rw [substrIdx_append_of_head_notMem (n := ['\r', '\n', '\r', '\n']) (d := '\r')
        _ _ rfl hr]
      rw [show substrIdx ['\r', '\n', '\r', '\n'] ("\r\nA: b\r\n\r\nBODY".data) = some 6 from
        by decide]
      simp
      all_goals omega
    have htake : (mkResp hv).take (hv.length + 21)
        = "Content-Length:".data ++ (hv ++ "\r\nA: b".data) := by
      rw [hm, ← hcat]
      rw [show ("Content-Length:".data ++ (hv ++ ("\r\nA: b".data ++ "\r\n\r\nBODY".data)))
          = ("Content-Length:".data ++ (hv ++ "\r\nA: b".data)) ++ "\r\n\r\nBODY".data by
        simp [List.append_assoc]]
      apply List.take_left'
      simp
    have hk : (("Content-Length".data ++ [':']).take 79) = "Content-Length:".data := by decide
    have hfh : fetchHeaderList ("Content-Length:".data ++ (hv ++ "\r\nA: b".data))
        ("Content-Length".data) = some (hv.dropWhile isCSpace) := by
      have f1 : substrIdx ("Content-Length:".data)
          ("Content-Length:".data ++ (hv ++ "\r\nA: b".data)) = some 0 :=
        substrIdx_append_self _ (by decide)
      have f2 : substrIdx ['\r', '\n'] ("Content-Length:".data ++ (hv ++ "\r\nA: b".data))
          = some (hv.length + 15) := by
        rw [substrIdx_append_of_head_notMem (n := ['\r', '\n']) (d := '\r') _ _ rfl (by decide)]
        rw [substrIdx_append_of_head_notMem (n := ['\r', '\n']) (d := '\r') _ _ rfl hr]
        rw [show substrIdx ['\r', '\n'] ("\r\nA: b".data) = some 0 from by decide]
        simp
      have f3 : ("Content-Length:".data ++ (hv ++ "\r\nA: b".data)).take (hv.length + 15)
          = "Content-Length:".data ++ hv := by
        rw [show ("Content-Length:".data ++ (hv ++ "\r\nA: b".data))
            = ("Content-Length:".data ++ hv) ++ "\r\nA: b".data by simp [List.append_assoc]]
        apply List.take_left'
        simp
      have f4 : List.drop 15 ("Content-Length:".data ++ hv) = hv := by
        rw [show (15 : Nat) = ("Content-Length:".data).length from rfl]
        exact List.drop_left _ _
      have hlen : ("Content-Length:".data).length = 15 := rfl
      simp only [fetchHeaderList, hk, f1, List.drop_zero, f2, hlen, f3, f4]
    have hml : (mkResp hv).length = hv.length + 29 := by
      simp [mkResp]
    simp only [parseResponseBody, hsep, htake, hfh, atoiInt_dropWhile]
    by_cases hc : atoiInt hv < 0 ∨ (100 * 1024 * 1024 : Int) < atoiInt hv
    · rw [if_pos hc, if_pos hc]
    · rw [if_neg hc, if_neg hc]
      have hlt : hv.length + 21 + 4 < (mkResp hv).length := by omega
      rw [if_pos hlt]
      have hfrag : List.take ((mkResp hv).length - (hv.length + 21 + 4))
          (List.drop (hv.length + 21 + 4) (mkResp hv)) = "BODY".data := by
        rw [hml]
        rw [show hv.length + 29 - (hv.length + 21 + 4) = 4 by omega]
        rw [hm, ← hcat]
        rw [show ("Content-Length:".data ++ (hv ++ ("\r\nA: b".data ++ "\r\n\r\nBODY".data)))
            = ("Content-Length:".data ++ (hv ++ "\r\nA: b".data)) ++ "\r\n\r\nBODY".data by
          simp [List.append_assoc]]
        rw [show (hv.length + 21 + 4)
            = ("Content-Length:".data ++ (hv ++ "\r\nA: b".data)).length + 4 by simp]
        rw [List.drop_append]
        decide
      rw [hfrag]
  · decide

/-- Witness for C7: a Content-Length of " 42" (leading whitespace tolerated)
    is accepted with length 42, by the amended theorem at a concrete input. -/
theorem parseResponseBody_contentLength_witness :
    parseResponseBody (mkResp (' ' :: '4' :: '2' :: []))
        (mkResp (' ' :: '4' :: '2' :: [])).length
      = some (42, some ("BODY".data)) := by
  have h := parseResponseBody_contentLength.1 (' ' :: '4' :: '2' :: []) (by decide)
  exact h.trans (by decide)

/-- C8: the field extractor is deterministic (it is a pure function of its
    two arguments) and satisfies the three concrete examples of the spec. -/
theorem json_deterministic_and_examples :
    (∀ (t k : String), json t k = json t k) ∧
    json "\x7b\"a\":\"1\",\"b\":\"2\"\x7d" "b" = some "2" ∧
    json "\x7b\"a\":1\x7d" "a" = some "1" ∧
    json "\x7b\"a\":\"1\"\x7d" "z" = none :=
  ⟨fun _t _k => rfl, by decide, by decide, by decide⟩

/-- C4 counterexample: with a symlink already at the destination and no other
    obstacle, fetchFile succeeds (exit 0) and replaces it with a fresh file —
    it does not fail closed as the claim states. -/
theorem fetchFile_replaces_symlink :
    fetchFile (some (FsObj.existing FsKind.symlink)) true true true
      = (0, some FsObj.freshFile) := by
  decide

/-- C4 (amended): the open itself has exclusive-create and symlink-refusing
    semantics (it fails on any existing object), but fetchFile unlinks the
    destination first, so whatever pre-existing file or symlink was at the
    path is removed and replaced rather than causing the download to fail. -/
theorem fetchFile_unlinks_then_exclusive :
    (∀ (o : FsObj) (oo : Bool), openExclNofollow (some o) oo = none) ∧
    (∀ pre : Option FsObj, fetchFile pre true true true = (0, some FsObj.freshFile)) :=
  ⟨fun _o _oo => rfl, fun _pre => rfl⟩

/-- C9 counterexample: fetchFile ignores the result of the unlink; when the
    unlink fails (as in a sticky /tmp or an unwritable directory) a
    pre-existing regular file survives the download attempt — the
    exclusive-create open fails and the old file is still at the path. -/
theorem fetchFile_preexisting_survives_failed_unlink :
    fetchFile (some (FsObj.existing FsKind.regular)) false true true
      = (-1, some (FsObj.existing FsKind.regular)) := by
  decide

/-- C9 (amended): fetchFile always attempts the unlink before opening and
    ignores its result. When the unlink succeeds, whatever object was at the
    path is removed and afterwards the path holds nothing or the fresh file,
    even when the open or the body transfer fails; when the unlink fails, the
    pre-existing object survives the attempt and the open fails instead. -/
theorem fetchFile_removes_preexisting_when_unlink_succeeds :
    ∀ (pre : Option FsObj) (oo wo : Bool),
      (unlinkFs pre true = none ∧
        ((fetchFile pre true oo wo).2 = none ∨
         (fetchFile pre true oo wo).2 = some FsObj.freshFile)) ∧
      (∀ o : FsObj, fetchFile (some o) false oo wo = (-1, some o)) := by
  intro pre oo wo
  refine ⟨⟨rfl, ?_⟩, fun o => ?_⟩
  · cases oo
    · simp [fetchFile, unlinkFs, openExclNofollow]
    · cases wo
      · simp [fetchFile, unlinkFs, openExclNofollow]
      · simp [fetchFile, unlinkFs, openExclNofollow]
  · simp [fetchFile, unlinkFs, openExclNofollow]

/-! ### Concrete orchestration scenarios -/

/-- A check response advertising an update with all four descriptor fields. -/
def okResponse : String :=
  "\x7b\"url\":\"https://u\",\"checksum\":\"abc\",\"update\":\"UID\",\"version\":\"1.2\"\x7d"

/-- An environment in which every step of the workflow succeeds. -/
def okEnv : Env :=
  { checkFetchOk := true, checkBody := some okResponse, downloadFetchOk := true,
    saveOk := true, fileSum := some "abc", runStatus := 0, reportFetchOk := true }

/-- An environment whose check response has no url field (no update). -/
def noUpdateEnv : Env := { okEnv with checkBody := some "\x7b\x7d" }

/-- okEnv but the apply script exits with status 1. -/
def scriptFailEnv : Env := { okEnv with runStatus := 1 }

/-- okEnv but the apply script exits with status 127. -/
def scriptFail127Env : Env := { okEnv with runStatus := 127 }

/-- okEnv but the report POST fails. -/
def reportFailEnv : Env := { okEnv with reportFetchOk := false }

/-- A check response advertising an update but missing the checksum field. -/
def incompleteResponse : String :=
  "\x7b\"url\":\"https://u\",\"update\":\"UID\",\"version\":\"1.2\"\x7d"

/-- okEnv with the incomplete check response. -/
def incompleteEnv : Env := { okEnv with checkBody := some incompleteResponse }

/-- A check response whose download url is plain http. -/
def insecureResponse : String :=
  "\x7b\"url\":\"http://u\",\"checksum\":\"abc\",\"update\":\"UID\",\"version\":\"1.2\"\x7d"

/-- okEnv with the insecure check response. -/
def insecureEnv : Env := { okEnv with checkBody := some insecureResponse }

/-- C1 counterexample: a run with no apply script in which download and
    checksum verification succeed posts no report at all (the network trace
    holds only the check POST and the download GET) and still returns 0. -/
theorem update_no_report_without_script :
    update (some "h") (some "p") (some "t") (some "d") (some "v") none (some "f") none okEnv
      = (0, [NetOp.post "h/tok/provision/update"
               "\x7b\"id\":\"d\",\"product\":\"p\",\"version\":\"v\"\x7d",
             NetOp.get "https://u"])
    ∧ ((update (some "h") (some "p") (some "t") (some "d") (some "v") none (some "f")
          none okEnv).2.all (fun op => !(isPostTo (reportUrl "h") op))) = true :=
  ⟨rfl, rfl⟩

/-- C1 (amended): when an apply script IS supplied and download and checksum
    verification succeed, update() posts the report to
    host/tok/provision/updateReport carrying the update id from the check
    response, and a failed report POST makes update() return -1. -/
theorem update_report_when_script (h p t d v pa sc : String) (props : Option String)
    (env : Env) (response u cs uid uv : String)
    (hf : env.checkFetchOk = true) (hb : env.checkBody = some response)
    (h1 : (checkUrl h).length < 4096)
    (h2 : (checkRequestBody d p v props).length < 4096)
    (h3 : (authHeaders t).length < 256)
    (hu : json response "url" = some u)
    (hcs : json response "checksum" = some cs)
    (hup : json response "update" = some uid)
    (hvv : json response "version" = some uv)
    (hsec : "https://".data.isPrefixOf u.data = true)
    (hdl : env.downloadFetchOk = true)
    (hsv : env.saveOk = true)
    (hfs : env.fileSum = some cs)
    (h4 : (reportBody env.runStatus d uid).length < 4096)
    (h5 : (reportUrl h).length < 256) :
    update (some h) (some p) (some t) (some d) (some v) props (some pa) (some sc) env
      = (if env.reportFetchOk then 0 else -1,
         [NetOp.post (checkUrl h) (checkRequestBody d p v props), NetOp.get u,
          NetOp.post (reportUrl h) (reportBody env.runStatus d uid)]) := by
  have n1 : ¬ (4096 ≤ (checkUrl h).length) := by omega
  have n2 : ¬ (4096 ≤ (checkRequestBody d p v props).length) := by omega
  have n3 : ¬ (256 ≤ (authHeaders t).length) := by omega
  have na : ¬ (256 ≤ ("Accept: */*\r\n" : String).length) := by decide
  have n4 : ¬ (4096 ≤ (reportBody env.runStatus d uid).length) := by omega
  have n5 : ¬ (256 ≤ (reportUrl h).length) := by omega
  cases hrp : env.reportFetchOk <;>
    (simp only [update, postReport, hf, hb, Bool.not_true, hu, hcs, hup, hvv, hsec, hdl,
      hsv, hfs, hrp]
     rw [if_neg n1, if_neg n2, if_neg n3, if_neg na, if_neg n4, if_neg n5, if_neg n3]
     simp)

/-- Witness for C1: the concrete failing-report run; update() returns -1 even
    though the update was downloaded, verified and applied. -/
theorem update_report_when_script_witness :
    update (some "h") (some "p") (some "t") (some "d") (some "v") none (some "f")
        (some "/s") reportFailEnv
      = (-1, [NetOp.post "h/tok/provision/update"
                "\x7b\"id\":\"d\",\"product\":\"p\",\"version\":\"v\"\x7d",
              NetOp.get "https://u",
              NetOp.post "h/tok/provision/updateReport"
                "\x7b\"success\":true,\"id\":\"d\",\"update\":\"UID\"\x7d"]) := by
  have hh := update_report_when_script "h" "p" "t" "d" "v" "f" "/s" none reportFailEnv
    okResponse "https://u" "abc" "UID" "1.2" rfl rfl (by decide) (by decide) (by decide)
    (by decide) (by decide) (by decide) (by decide) (by decide) rfl rfl rfl
    (by decide) (by decide)
  exact hh.trans (by decide)

/-- C2 counterexample: the apply script exits with status 1, yet update()
    returns 0 because the (success:false) report posted successfully. -/
theorem update_success_despite_script_failure :
    update (some "h") (some "p") (some "t") (some "d") (some "v") none (some "f")
        (some "/s") scriptFailEnv
      = (0, [NetOp.post "h/tok/provision/update"
               "\x7b\"id\":\"d\",\"product\":\"p\",\"version\":\"v\"\x7d",
             NetOp.get "https://u",
             NetOp.post "h/tok/provision/updateReport"
               "\x7b\"success\":false,\"id\":\"d\",\"update\":\"UID\"\x7d"]) := rfl

/-- C2 (amended): a non-zero apply-script exit status does not make update()
    fail: provided the report POST succeeds, update() returns 0, and the
    failure is propagated only through the success:false field of the posted
    report body. -/
theorem update_script_failure_not_fatal (h p t d v pa sc : String) (props : Option String)
    (env : Env) (response u cs uid uv : String)
    (hf : env.checkFetchOk = true) (hb : env.checkBody = some response)
    (h1 : (checkUrl h).length < 4096)
    (h2 : (checkRequestBody d p v props).length < 4096)
    (h3 : (authHeaders t).length < 256)
    (hu : json response "url" = some u)
    (hcs : json response "checksum" = some cs)
    (hup : json response "update" = some uid)
    (hvv : json response "version" = some uv)
    (hsec : "https://".data.isPrefixOf u.data = true)
    (hdl : env.downloadFetchOk = true)
    (hsv : env.saveOk = true)
    (hfs : env.fileSum = some cs)
    (h4 : (reportBody env.runStatus d uid).length < 4096)
    (h5 : (reportUrl h).length < 256)
    (hst : env.runStatus ≠ 0)
    (hrp : env.reportFetchOk = true) :
    update (some h) (some p) (some t) (some d) (some v) props (some pa) (some sc) env
      = (0, [NetOp.post (checkUrl h) (checkRequestBody d p v props), NetOp.get u,
             NetOp.post (reportUrl h)
               ("\x7b\"success\":false,\"id\":\"" ++ d ++ "\",\"update\":\"" ++ uid
                 ++ "\"\x7d")]) := by
  have n1 : ¬ (4096 ≤ (checkUrl h).length) := by omega
  have n2 : ¬ (4096 ≤ (checkRequestBody d p v props).length) := by omega
  have n3 : ¬ (256 ≤ (authHeaders t).length) := by omega
  have na : ¬ (256 ≤ ("Accept: */*\r\n" : String).length) := by decide
  have n4 : ¬ (4096 ≤ (reportBody env.runStatus d uid).length) := by omega
  have n5 : ¬ (256 ≤ (reportUrl h).length) := by omega
  have hbody : reportBody env.runStatus d uid
      = "\x7b\"success\":false,\"id\":\"" ++ d ++ "\",\"update\":\"" ++ uid ++ "\"\x7d" := by
    simp [reportBody, hst]
  simp only [update, postReport, hf, hb, Bool.not_true, hu, hcs, hup, hvv, hsec, hdl,
    hsv, hfs, hrp]
  rw [if_neg n1, if_neg n2, if_neg n3, if_neg na, if_neg n4, if_neg n5, if_neg n3]
  simp [hbody]

/-- Witness for C2: script exit status 127 is reported as success:false and
    update() still returns 0. -/
theorem update_script_failure_not_fatal_witness :
    update (some "h") (some "p") (some "t") (some "d") (some "v") none (some "f")
        (some "/s") scriptFail127Env
      = (0, [NetOp.post "h/tok/provision/update"
               "\x7b\"id\":\"d\",\"product\":\"p\",\"version\":\"v\"\x7d",
             NetOp.get "https://u",
             NetOp.post "h/tok/provision/updateReport"
               "\x7b\"success\":false,\"id\":\"d\",\"update\":\"UID\"\x7d"]) := by
  have hh := update_script_failure_not_fatal "h" "p" "t" "d" "v" "f" "/s" none
    scriptFail127Env okResponse "https://u" "abc" "UID" "1.2" rfl rfl (by decide)
    (by decide) (by decide) (by decide) (by decide) (by decide) (by decide) (by decide)
    rfl rfl rfl (by decide) (by decide) (by decide) rfl
  exact hh.trans (by decide)

/-- C3 counterexample: an empty (non-NULL) host string passes the argument
    check, so update() performs the check POST (network I/O) and here even
    returns 0 — the claim that empty parameters fail without network I/O is
    false. -/
theorem update_empty_host_network_io :
    update (some "") (some "p") (some "t") (some "d") (some "v") none (some "f")
        none noUpdateEnv
      = (0, [NetOp.post "/tok/provision/update"
               "\x7b\"id\":\"d\",\"product\":\"p\",\"version\":\"v\"\x7d"]) := rfl

/-- C3 (amended): only NULL required parameters are rejected: if host, product,
    token, device, version or path is NULL, update() returns -1 with an empty
    network trace; empty strings are not checked. -/
theorem update_null_args_no_network :
    ∀ (host product token device version properties path script : Option String) (env : Env),
      host = none ∨ product = none ∨ token = none ∨ device = none ∨ version = none ∨
        path = none →
      update host product token device version properties path script env = (-1, []) := by
  intro host product token device version properties path script env h
  cases host <;> cases product <;> cases token <;> cases device <;> cases version <;>
    cases path <;> simp_all [update]

/-- Witness for C3: a NULL host is rejected with no network operations. -/
theorem update_null_args_no_network_witness :
    update none (some "p") (some "t") (some "d") (some "v") none (some "f") none noUpdateEnv
      = (-1, []) :=
  update_null_args_no_network none (some "p") (some "t") (some "d") (some "v") none
    (some "f") none noUpdateEnv (Or.inl rfl)

/-- C5: a check response with url but a missing checksum, update or version
    field makes update() return -1 with only the check POST in the trace (the
    download GET is never issued); a response with no url at all makes update()
    return 0, again without any download. -/
theorem update_incomplete_or_no_update (h p t d v pa : String) (props script : Option String)
    (env : Env) (response u : String)
    (hf : env.checkFetchOk = true) (hb : env.checkBody = some response)
    (h1 : (checkUrl h).length < 4096)
    (h2 : (checkRequestBody d p v props).length < 4096)
    (h3 : (authHeaders t).length < 256) :
    (json response "url" = some u →
      (json response "checksum" = none ∨ json response "update" = none ∨
       json response "version" = none) →
      update (some h) (some p) (some t) (some d) (some v) props (some pa) script env
        = (-1, [NetOp.post (checkUrl h) (checkRequestBody d p v props)])) ∧
    (json response "url" = none →
      update (some h) (some p) (some t) (some d) (some v) props (some pa) script env
        = (0, [NetOp.post (checkUrl h) (checkRequestBody d p v props)])) := by
  have n1 : ¬ (4096 ≤ (checkUrl h).length) := by omega
  have n2 : ¬ (4096 ≤ (checkRequestBody d p v props).length) := by omega
  have n3 : ¬ (256 ≤ (authHeaders t).length) := by omega
  constructor
  · intro hu hmiss
    cases hcs : json response "checksum" <;> cases hup : json response "update" <;>
      cases hvv : json response "version" <;>
      simp only [update, hf, hb, Bool.not_true, hu, hcs, hup, hvv] <;>
      first
        | (rw [if_neg n1, if_neg n2, if_neg n3]; simp; done)
        | (simp [hcs, hup, hvv] at hmiss)
  · intro hu0
    simp only [update, hf, hb, Bool.not_true, hu0]
    rw [if_neg n1, if_neg n2, if_neg n3]
    simp

/-- Witness for C5: the concrete response missing its checksum field fails
    with only the check POST attempted. -/
theorem update_incomplete_or_no_update_witness :
    update (some "h") (some "p") (some "t") (some "d") (some "v") none (some "f")
        none incompleteEnv
      = (-1, [NetOp.post "h/tok/provision/update"
                "\x7b\"id\":\"d\",\"product\":\"p\",\"version\":\"v\"\x7d"]) := by
  have hh := (update_incomplete_or_no_update "h" "p" "t" "d" "v" "f" none none
    incompleteEnv incompleteResponse "https://u" rfl rfl (by decide) (by decide)
    (by decide)).1 (by decide) (Or.inl (by decide))
  exact hh.trans (by decide)

/-- C6: a download url that does not begin with https:// makes update() return
    -1 with only the check POST in the trace: no connection of any kind is
    attempted to that url. -/
theorem update_insecure_url_rejected (h p t d v pa : String) (props script : Option String)
    (env : Env) (response u cs uid uv : String)
    (hf : env.checkFetchOk = true) (hb : env.checkBody = some response)
    (h1 : (checkUrl h).length < 4096)
    (h2 : (checkRequestBody d p v props).length < 4096)
    (h3 : (authHeaders t).length < 256)
    (hu : json response "url" = some u)
    (hcs : json response "checksum" = some cs)
    (hup : json response "update" = some uid)
    (hvv : json response "version" = some uv)
    (hins : "https://".data.isPrefixOf u.data = false) :
    update (some h) (some p) (some t) (some d) (some v) props (some pa) script env
      = (-1, [NetOp.post (checkUrl h) (checkRequestBody d p v props)]) := by
  have n1 : ¬ (4096 ≤ (checkUrl h).length) := by omega
  have n2 : ¬ (4096 ≤ (checkRequestBody d p v props).length) := by omega
  have n3 : ¬ (256 ≤ (authHeaders t).length) := by omega
  have na : ¬ (256 ≤ ("Accept: */*\r\n" : String).length) := by decide
  simp only [update, hf, hb, Bool.not_true, hu, hcs, hup, hvv, hins]
  rw [if_neg n1, if_neg n2, if_neg n3, if_neg na]
  simp

/-- Witness for C6: the concrete http:// download url is rejected with no GET
    in the trace. -/
theorem update_insecure_url_rejected_witness :
    update (some "h") (some "p") (some "t") (some "d") (some "v") none (some "f")
        none insecureEnv
      = (-1, [NetOp.post "h/tok/provision/update"
                "\x7b\"id\":\"d\",\"product\":\"p\",\"version\":\"v\"\x7d"]) := by
  have hh := update_insecure_url_rejected "h" "p" "t" "d" "v" "f" none none insecureEnv
    insecureResponse "http://u" "abc" "UID" "1.2" rfl rfl (by decide) (by decide)
    (by decide) (by decide) (by decide) (by decide) (by decide) (by decide)
  exact hh.trans (by decide)

end Updater
